import Mathlib

/-!
A shallow embedding of `main.go` of weather-cli, and the properties of its
geocoding and weather clients.

The program is a linear script: `main` reads its configuration and arguments,
`getCoordinates` performs one HTTP GET against the geocoding endpoint and
`getWeather` performs one HTTP GET against the weather endpoint and prints the
rendering.

Modelling decisions.

* `float64` is a type parameter `F`.  The program never computes with floats, it
  only carries them from the decoded JSON to `fmt`.  The two `fmt` verbs applied
  to floats (`%f` and `%.1f`) are fields of `World`.  For the claim about the
  rendering of temperatures the parameter is instantiated by `Float64`, a finite
  binary floating-point value, and the verbs by `formatF` and `formatF1`.
* The outside world (`http.Get`, `encoding/json`) is the record `World`.  Every
  effect the program performs is appended to a trace of `Event`s, in program
  order, so that statements such as "no weather call is made" are statements
  about the trace.
* A Go `error` is observed by this program only through `Error()`, so it is
  modelled by its message.
* `os.Exit` and a run-time panic end the process; they are the `Outcome`.
-/

namespace WeatherCli

/-! ## Data model (lines 12-35) -/

/-- One element of `GeocodeResponse`.  A JSON object without a `state` key decodes
to `State = ""` (the Go zero value). -/
structure GeocodeEntry (F : Type) where
  Name : String
  Lat : F
  Lon : F
  State : String
  Country : String

/-- The Go type `GeocodeResponse`, a slice of candidates. -/
abbrev GeocodeResponse (F : Type) := List (GeocodeEntry F)

/-- The anonymous element type of the `Weather` slices. -/
structure WeatherDesc where
  Description : String
deriving DecidableEq

/-- The anonymous struct type of `OneCallResponse.Current`. -/
structure CurrentWeather (F : Type) where
  Temp : F
  Weather : List WeatherDesc

/-- The anonymous struct type of `OneCallResponse.Daily[i].Temp`. -/
structure DailyTemp (F : Type) where
  Day : F

/-- The anonymous element type of `OneCallResponse.Daily`. -/
structure DailyEntry (F : Type) where
  Temp : DailyTemp F
  Weather : List WeatherDesc

/-- The Go type `OneCallResponse`. -/
structure OneCallResponse (F : Type) where
  Current : CurrentWeather F
  Daily : List (DailyEntry F)

/-! ## Errors, responses, the world -/

/-- A Go `error`, identified with the string its `Error()` method returns. -/
structure GoError where
  Error : String
deriving DecidableEq

/-- The call `fmt.Errorf(msg)` after its verbs have been substituted. -/
def Errorf (msg : String) : GoError := ⟨msg⟩

/-- The part of `http.Response` the program reads. -/
structure Response where
  StatusCode : Int
  Body : String
deriving DecidableEq

/-- The constant `http.StatusOK`. -/
def StatusOK : Int := 200

/-- Everything outside the program: the network, the JSON decoder instantiated at
the two response types, and the two float verbs of `fmt`. -/
structure World (F : Type) where
  /-- The call `http.Get(url)`: a transport error or a response. -/
  Get : String → Except GoError Response
  /-- The call `json.NewDecoder(body).Decode(&data)` with `data : GeocodeResponse`. -/
  decodeGeocode : String → Except GoError (GeocodeResponse F)
  /-- The call `json.NewDecoder(body).Decode(&data)` with `data : OneCallResponse`. -/
  decodeOneCall : String → Except GoError (OneCallResponse F)
  /-- The verb `%f` applied to a `float64`. -/
  fmtF : F → String
  /-- The verb `%.1f` applied to a `float64`. -/
  fmtF1 : F → String

/-- The process environment `main` reads. -/
structure Env where
  /-- The result of `godotenv.Load()`. -/
  Load : Except GoError Unit
  /-- The value of `os.Getenv("OPENWEATHER_API_KEY")` after the load. -/
  OPENWEATHER_API_KEY : String
  /-- The slice `os.Args`. -/
  Args : List String

/-- An effect performed by the program. -/
inductive Event where
  /-- A call of `http.Get` on the given URL. -/
  | httpGet (url : String)
  /-- A call of `Decode` on the given response body. -/
  | jsonDecode (body : String)
  /-- Text written to standard output by `fmt.Println` or `fmt.Printf`. -/
  | stdout (text : String)
deriving DecidableEq

/-- How a function that may end the process finishes. -/
inductive Outcome where
  /-- The function returned normally. -/
  | returned
  /-- The call `os.Exit(code)`. -/
  | exited (code : Int)
  /-- The run-time panic "index out of range [index] with length length". -/
  | panicked (index length : Nat)
deriving DecidableEq

/-- The URLs requested in a trace, in order. -/
def httpCalls : List Event → List String
  | [] => []
  | .httpGet url :: es => url :: httpCalls es
  | _ :: es => httpCalls es

/-- The bodies on which a JSON decode was attempted in a trace, in order. -/
def decodeCalls : List Event → List String
  | [] => []
  | .jsonDecode body :: es => body :: decodeCalls es
  | _ :: es => decodeCalls es

/-- The pieces of text written to standard output in a trace, in order. -/
def stdoutOf : List Event → List String
  | [] => []
  | .stdout text :: es => text :: stdoutOf es
  | _ :: es => stdoutOf es

/-! ## `getCoordinates` (lines 69-100) -/

/-- The function `getCoordinates`.  The global `apiKey` is passed explicitly.  The
result is the trace of effects together with either the returned `error` or the
triple `(lat, lon, location)`. -/
def getCoordinates {F : Type} (w : World F) (apiKey city region : String) :
    List Event × Except GoError (F × F × String) :=
  let query := city ++ "," ++ region
  let apiUrl := "http://api.openweathermap.org/geo/1.0/direct?q=" ++ query
    ++ "&limit=1&appid=" ++ apiKey
  match w.Get apiUrl with
  | .error err => ([.httpGet apiUrl], .error err)
  | .ok resp =>
    if resp.StatusCode ≠ StatusOK then
      ([.httpGet apiUrl], .error (Errorf ("unable to fetch coordinates for city " ++ city)))
    else
      match w.decodeGeocode resp.Body with
      | .error err => ([.httpGet apiUrl, .jsonDecode resp.Body], .error err)
      | .ok data =>
        match data with
        | [] =>
          ([.httpGet apiUrl, .jsonDecode resp.Body],
            .error (Errorf ("city " ++ city ++ " not found")))
        | d0 :: _ =>
          let location := d0.Name
          let location :=
            if d0.State ≠ "" then location ++ (", " ++ d0.State)
            else location ++ (", " ++ d0.Country)
          ([.httpGet apiUrl, .jsonDecode resp.Body], .ok (d0.Lat, d0.Lon, location))

/-! ## `getWeather` (lines 102-131) -/

/-- The body of the `for i, day := range data.Daily` loop of `getWeather`, run on
the entries that remain, `i` being the index of the first of them. -/
def forecastLoop {F : Type} (w : World F) : Nat → List (DailyEntry F) → List Event × Outcome
  | _, [] => ([], .returned)
  | i, day :: rest =>
    if i = 0 then
      forecastLoop w (i + 1) rest
    else
      match day.Weather with
      | [] => ([], .panicked 0 0)
      | w0 :: _ =>
        let r := forecastLoop w (i + 1) rest
        (.stdout ("Day " ++ toString i ++ ": " ++ w.fmtF1 day.Temp.Day ++ "°F, "
            ++ w0.Description ++ "\n") :: r.1, r.2)

/-- The URL `getWeather` builds with `Sprintf` on line 103. -/
def weatherUrl {F : Type} (w : World F) (apiKey : String) (lat lon : F) : String :=
  "https://api.openweathermap.org/data/3.0/onecall?lat=" ++ w.fmtF lat
    ++ "&lon=" ++ w.fmtF lon ++ "&exclude=minutely,hourly,alerts&units=imperial&appid=" ++ apiKey

/-- The function `getWeather`.  The arguments of a `Printf` are evaluated before
the call, so an index fault in an argument happens before that line is
written. -/
def getWeather {F : Type} (w : World F) (apiKey : String) (lat lon : F) : List Event × Outcome :=
  let apiUrl := weatherUrl w apiKey lat lon
  match w.Get apiUrl with
  | .error err => ([.httpGet apiUrl, .stdout ("Error: " ++ err.Error ++ "\n")], .exited 1)
  | .ok resp =>
    if resp.StatusCode ≠ StatusOK then
      ([.httpGet apiUrl, .stdout "Error: Unable to fetch weather data!\n"], .exited 1)
    else
      match w.decodeOneCall resp.Body with
      | .error err =>
        ([.httpGet apiUrl, .jsonDecode resp.Body,
          .stdout ("Error decoding JSON: " ++ err.Error ++ "\n")], .exited 1)
      | .ok data =>
        match data.Current.Weather with
        | [] => ([.httpGet apiUrl, .jsonDecode resp.Body], .panicked 0 0)
        | c0 :: _ =>
          let r := forecastLoop w 0 data.Daily
          (.httpGet apiUrl :: .jsonDecode resp.Body
            :: .stdout ("Current Weather: " ++ w.fmtF1 data.Current.Temp ++ "°F, "
                ++ c0.Description ++ "\n")
            :: .stdout "7-Day Forecast:\n" :: r.1, r.2)

/-! ## `main` (lines 39-67) -/

/-- The function `main`.  Returning from `main` ends the process with status 0,
which is the outcome `returned`. -/
def main {F : Type} (w : World F) (env : Env) : List Event × Outcome :=
  match env.Load with
  | .error _ => ([.stdout "Error loading .env file\n"], .exited 1)
  | .ok _ =>
    let apiKey := env.OPENWEATHER_API_KEY
    if apiKey = "" then
      ([.stdout "Please set OPENWEATHER_API_KEY in .env file\n"], .exited 1)
    else if h : env.Args.length < 3 then
      ([.stdout "Please provide a city name and state/country\n"], .exited 1)
    else
      let city := env.Args[1]
      let region := env.Args[2]
      match getCoordinates w apiKey city region with
      | (t, .error err) =>
        (t ++ [.stdout ("Error fetching coordinates: " ++ err.Error ++ "\n")], .exited 1)
      | (t, .ok (lat, lon, location)) =>
        let r := getWeather w apiKey lat lon
        (t ++ .stdout ("Fetching weather for: " ++ location ++ "\n") :: r.1, r.2)

/-! ## Sample instantiation

A decimal fixed-point stand-in for `float64` with three fractional digits (the
integer `72849` stands for `72.849`), used to run the program on concrete
inputs.  Its two verbs agree with the verbs of Go on the values used below; the
verbs themselves are `formatF` and `formatF1` on `Float64`. -/

/-- The verb `%f` (six fractional digits) on the fixed-point sample type. -/
def sampleFmtF (x : Int) : String :=
  let m := x.natAbs
  let frac := m % 1000
  (if x < 0 then "-" else "") ++ toString (m / 1000) ++ "."
    ++ (if frac < 10 then "00" else if frac < 100 then "0" else "") ++ toString frac ++ "000"

/-- The verb `%.1f` on the fixed-point sample type, rounding to the nearest tenth. -/
def sampleFmtF1 (x : Int) : String :=
  let t := (x.natAbs + 50) / 100
  (if x < 0 then "-" else "") ++ toString (t / 10) ++ "." ++ toString (t % 10)

/-- A world in which every request is answered by `resp` and the decoders yield
`geo` and `wx`. -/
def sampleWorld (resp : Response) (geo : Except GoError (GeocodeResponse Int))
    (wx : Except GoError (OneCallResponse Int)) : World Int where
  Get := fun _ => .ok resp
  decodeGeocode := fun _ => geo
  decodeOneCall := fun _ => wx
  fmtF := sampleFmtF
  fmtF1 := sampleFmtF1

/-- The candidate of the scenario `city="Paris", region="FR"`. -/
def paris : GeocodeEntry Int := ⟨"Paris", 48850, 2350, "", "FR"⟩

/-- The candidate of the scenario `city="Austin", region="Texas"`. -/
def austin : GeocodeEntry Int := ⟨"Austin", 30270, -97740, "Texas", "US"⟩

/-- A well-formed process environment for `<program> Paris FR`. -/
def parisEnv : Env := ⟨.ok (), "k", ["weather", "Paris", "FR"]⟩

/-- A world in which every request fails in transport. -/
def offlineWorld : World Int where
  Get := fun _ => .error ⟨"connection refused"⟩
  decodeGeocode := fun _ => .error ⟨"unused"⟩
  decodeOneCall := fun _ => .error ⟨"unused"⟩
  fmtF := sampleFmtF
  fmtF1 := sampleFmtF1

/-- A daily entry with one weather description. -/
def rainyDay (temp : Int) : DailyEntry Int := ⟨⟨temp⟩, [⟨"light rain"⟩]⟩

/-- A daily entry whose weather-description list is empty. -/
def bareDay (temp : Int) : DailyEntry Int := ⟨⟨temp⟩, []⟩

/-- The current conditions of the scenario `current.temp=72.849`, "clear sky". -/
def clearSky : CurrentWeather Int := ⟨72849, [⟨"clear sky"⟩]⟩

/-- Eight daily entries, each with a weather description. -/
def fullWeek : List (DailyEntry Int) :=
  [rainyDay 70000, rainyDay 71000, rainyDay 72000, rainyDay 73000,
   rainyDay 74000, rainyDay 75000, rainyDay 76000, rainyDay 77000]

/-- Eight daily entries, the one at index 0 without a weather description. -/
def weekBareToday : List (DailyEntry Int) :=
  [bareDay 70000, rainyDay 71000, rainyDay 72000, rainyDay 73000,
   rainyDay 74000, rainyDay 75000, rainyDay 76000, rainyDay 77000]

/-- Eight daily entries, the one at index 3 without a weather description. -/
def weekBareThird : List (DailyEntry Int) :=
  [rainyDay 70000, rainyDay 71000, rainyDay 72000, bareDay 73000,
   rainyDay 74000, rainyDay 75000, rainyDay 76000, rainyDay 77000]

/-- A world whose weather endpoint answers 200 with a body decoding to `data`. -/
def weatherWorld (data : OneCallResponse Int) : World Int :=
  sampleWorld ⟨200, "onecall"⟩ (.ok [austin]) (.ok data)

/-! ## The float verbs of `fmt` -/

/-- Modelled from the spec: a finite `float64`, the value `(-1)^sign * mant * 2^exp`.
The type belongs to the Go language and is not declared in the repository.  A JSON
number decodes to a finite value only, so no other value reaches the verbs. -/
structure Float64 where
  sign : Bool
  mant : Nat
  exp : Int
deriving DecidableEq

/-- Modelled from the spec: the integer nearest to `|x| * 10^prec`, a tie going to
the even neighbour.  This is the rounding the `fmt` package of Go, which is not
part of the repository, applies for the verbs `%f` and `%.1f` ("one decimal
place", "input `72.849` renders as `72.8`"). -/
def Float64.roundScaled (x : Float64) (prec : Nat) : Nat :=
  let n := x.mant * 10 ^ prec * 2 ^ x.exp.toNat
  let d := 2 ^ (-x.exp).toNat
  let q := n / d
  let r := n % d
  if 2 * r < d then q
  else if d < 2 * r then q + 1
  else if q % 2 = 0 then q
  else q + 1

/-- Modelled from the spec: the verb `%.1f` of the Go `fmt` package (not part of the
repository) applied to a finite `float64`: the sign when the sign bit is set, the
integer digits, a point, and the one digit of the value rounded to the nearest
tenth ("temperature (one decimal place, °F)"). -/
def formatF1 (x : Float64) : String :=
  let t := x.roundScaled 1
  (if x.sign then "-" else "") ++ toString (t / 10) ++ "." ++ toString (t % 10)

/-- Modelled from the spec: the verb `%f` of the Go `fmt` package (not part of the
repository) applied to a finite `float64`: as `%.1f` with six digits after the
point, padded with zeros. -/
def formatF (x : Float64) : String :=
  let t := x.roundScaled 6
  let frac := toString (t % 1000000)
  (if x.sign then "-" else "") ++ toString (t / 1000000) ++ "."
    ++ String.mk (List.replicate (6 - frac.length) '0') ++ frac

/-- The shape "exactly one digit after the decimal point": an optional minus sign,
one or more digits, a point, one digit. -/
def OneDecimalDigit (s : String) : Prop :=
  ∃ (sign ip : List Char) (d : Char),
    s.toList = sign ++ ip ++ ['.', d]
    ∧ (sign = [] ∨ sign = ['-'])
    ∧ ip ≠ [] ∧ (∀ c ∈ ip, c.isDigit = true)
    ∧ d.isDigit = true

/-- The `float64` nearest to the decimal `72.849`. -/
def temp72849 : Float64 := ⟨false, 5126292644598645, -46⟩

/-- A world over the modelled `float64` and its verbs, in which every request is
answered by `resp` and the decoders yield `geo` and `wx`. -/
def verbWorld (resp : Response) (geo : Except GoError (GeocodeResponse Float64))
    (wx : Except GoError (OneCallResponse Float64)) : World Float64 where
  Get := fun _ => .ok resp
  decodeGeocode := fun _ => geo
  decodeOneCall := fun _ => wx
  fmtF := formatF
  fmtF1 := formatF1

/-- The weather record of the scenario `current.temp=72.849`, "clear sky",
`daily=[d0..d7]`. -/
def clearSkyRecord : OneCallResponse Float64 :=
  ⟨⟨temp72849, [⟨"clear sky"⟩]⟩,
   [⟨⟨⟨false, 70, 0⟩⟩, [⟨"clear sky"⟩]⟩, ⟨⟨⟨false, 71, 0⟩⟩, [⟨"light rain"⟩]⟩,
    ⟨⟨⟨false, 145, -1⟩⟩, [⟨"light rain"⟩]⟩, ⟨⟨⟨false, 293, -2⟩⟩, [⟨"few clouds"⟩]⟩,
    ⟨⟨⟨false, 37, 1⟩⟩, [⟨"few clouds"⟩]⟩, ⟨⟨⟨false, 75, 0⟩⟩, [⟨"clear sky"⟩]⟩,
    ⟨⟨⟨true, 1, -2⟩⟩, [⟨"snow"⟩]⟩, ⟨⟨⟨false, 77, 0⟩⟩, [⟨"clear sky"⟩]⟩]⟩

/-! ## Helper lemmas -/

/-- The URL built by the two `Sprintf` calls of `getCoordinates`, written flat. -/
theorem geocodeUrl_flat (apiKey city region : String) :
    "http://api.openweathermap.org/geo/1.0/direct?q=" ++ (city ++ "," ++ region)
        ++ "&limit=1&appid=" ++ apiKey
      = "http://api.openweathermap.org/geo/1.0/direct?q=" ++ city ++ "," ++ region
        ++ "&limit=1&appid=" ++ apiKey := by
  simp only [String.append_assoc]

/-- What `getCoordinates` does on a response whose status is not 200. -/
theorem getCoordinates_of_status_ne {F : Type} (w : World F) (apiKey city region : String)
    (resp : Response)
    (hget : w.Get ("http://api.openweathermap.org/geo/1.0/direct?q=" ++ city ++ "," ++ region
      ++ "&limit=1&appid=" ++ apiKey) = .ok resp)
    (hst : resp.StatusCode ≠ 200) :
    getCoordinates w apiKey city region
      = ([.httpGet ("http://api.openweathermap.org/geo/1.0/direct?q=" ++ city ++ "," ++ region
            ++ "&limit=1&appid=" ++ apiKey)],
         .error (Errorf ("unable to fetch coordinates for city " ++ city))) := by
  unfold getCoordinates
  simp only [geocodeUrl_flat, hget, StatusOK]
  rw [if_pos hst]

/-- What `getCoordinates` does on a 200 response whose body decodes to `data`. -/
theorem getCoordinates_of_decoded {F : Type} (w : World F) (apiKey city region : String)
    (resp : Response) (data : GeocodeResponse F)
    (hget : w.Get ("http://api.openweathermap.org/geo/1.0/direct?q=" ++ city ++ "," ++ region
      ++ "&limit=1&appid=" ++ apiKey) = .ok resp)
    (hst : resp.StatusCode = 200)
    (hdec : w.decodeGeocode resp.Body = .ok data) :
    getCoordinates w apiKey city region
      = ([.httpGet ("http://api.openweathermap.org/geo/1.0/direct?q=" ++ city ++ "," ++ region
            ++ "&limit=1&appid=" ++ apiKey), .jsonDecode resp.Body],
         match data with
         | [] => .error (Errorf ("city " ++ city ++ " not found"))
         | d0 :: _ =>
           .ok (d0.Lat, d0.Lon,
             if d0.State ≠ "" then d0.Name ++ (", " ++ d0.State)
             else d0.Name ++ (", " ++ d0.Country))) := by
  unfold getCoordinates
  simp only [geocodeUrl_flat, hget, StatusOK, hst, hdec]
  cases data <;> simp

/-- What `main` does once the configuration and the arguments are in order and
`getCoordinates` has failed. -/
theorem main_of_getCoordinates_error {F : Type} (w : World F) (env : Env)
    (prog city region : String) (more : List String) (t : List Event) (err : GoError)
    (hload : env.Load = .ok ()) (hkey : env.OPENWEATHER_API_KEY ≠ "")
    (hargs : env.Args = prog :: city :: region :: more)
    (hgc : getCoordinates w env.OPENWEATHER_API_KEY city region = (t, .error err)) :
    main w env
      = (t ++ [.stdout ("Error fetching coordinates: " ++ err.Error ++ "\n")], .exited 1) := by
  obtain ⟨load, key, args⟩ := env
  simp only at hload hkey hargs hgc
  subst hload hargs
  simp [main, hkey, hgc]

/-! ## The geocoding client -/

/-- C1: when the geocoding endpoint answers 200 and the body decodes to a non-empty
candidate list `d0 :: rest`, `getCoordinates` succeeds and returns the latitude and
longitude of `d0` and the label `name + ", " + state` when the state of `d0` is
non-empty and `name + ", " + country` otherwise, whatever `rest` is. -/
theorem getCoordinates_first_candidate {F : Type} (w : World F)
    (apiKey city region : String) (resp : Response)
    (d0 : GeocodeEntry F) (rest : List (GeocodeEntry F))
    (hget : w.Get ("http://api.openweathermap.org/geo/1.0/direct?q=" ++ city ++ "," ++ region
      ++ "&limit=1&appid=" ++ apiKey) = .ok resp)
    (hst : resp.StatusCode = 200)
    (hdec : w.decodeGeocode resp.Body = .ok (d0 :: rest)) :
    (getCoordinates w apiKey city region).2
      = .ok (d0.Lat, d0.Lon,
          if d0.State ≠ "" then d0.Name ++ ", " ++ d0.State
          else d0.Name ++ ", " ++ d0.Country) := by
  rw [getCoordinates_of_decoded w apiKey city region resp _ hget hst hdec]
  simp only [String.append_assoc]

/-- The two scenarios of the specification: `Paris, FR` has no state and is
labelled by its country, `Austin, Texas` is labelled by its state, also when
further candidates follow. -/
theorem getCoordinates_first_candidate_witness :
    (getCoordinates (sampleWorld ⟨200, "geo"⟩ (.ok [paris]) (.error ⟨"unused"⟩))
        "k" "Paris" "FR").2 = .ok (48850, 2350, "Paris, FR")
    ∧ (getCoordinates (sampleWorld ⟨200, "geo"⟩ (.ok [austin, paris]) (.error ⟨"unused"⟩))
        "k" "Austin" "Texas").2 = .ok (30270, -97740, "Austin, Texas") :=
  ⟨getCoordinates_first_candidate (sampleWorld ⟨200, "geo"⟩ (.ok [paris]) (.error ⟨"unused"⟩))
      "k" "Paris" "FR" ⟨200, "geo"⟩ paris [] rfl rfl rfl,
   getCoordinates_first_candidate
      (sampleWorld ⟨200, "geo"⟩ (.ok [austin, paris]) (.error ⟨"unused"⟩))
      "k" "Austin" "Texas" ⟨200, "geo"⟩ austin [paris] rfl rfl rfl⟩

/-- C7: for all city, region and key strings and whatever the world answers,
`getCoordinates` requests exactly one URL, and it is
`"http://api.openweathermap.org/geo/1.0/direct?q=" ++ city ++ "," ++ region ++
"&limit=1&appid=" ++ key`, the three strings inserted verbatim. -/
theorem getCoordinates_url {F : Type} (w : World F) (apiKey city region : String) :
    httpCalls (getCoordinates w apiKey city region).1
      = ["http://api.openweathermap.org/geo/1.0/direct?q=" ++ city ++ "," ++ region
          ++ "&limit=1&appid=" ++ apiKey] := by
  unfold getCoordinates
  simp only [geocodeUrl_flat]
  split
  · rfl
  · split
    · rfl
    · split
      · rfl
      · split <;> rfl

/-- C2: for every city and region, when the geocoding endpoint answers 200 with a
body that decodes to the empty candidate array, `getCoordinates` fails with the
error "city <city> not found", and the program then exits with code 1 having
requested only the geocoding URL and having written only the line
"Error fetching coordinates: city <city> not found": there is no weather call and
no "Fetching weather for:" line. -/
theorem main_city_not_found {F : Type} (w : World F) (env : Env)
    (prog city region : String) (more : List String) (resp : Response)
    (hload : env.Load = .ok ()) (hkey : env.OPENWEATHER_API_KEY ≠ "")
    (hargs : env.Args = prog :: city :: region :: more)
    (hget : w.Get ("http://api.openweathermap.org/geo/1.0/direct?q=" ++ city ++ "," ++ region
      ++ "&limit=1&appid=" ++ env.OPENWEATHER_API_KEY) = .ok resp)
    (hst : resp.StatusCode = 200)
    (hdec : w.decodeGeocode resp.Body = .ok []) :
    (getCoordinates w env.OPENWEATHER_API_KEY city region).2
        = .error (Errorf ("city " ++ city ++ " not found"))
    ∧ (main w env).2 = .exited 1
    ∧ httpCalls (main w env).1
        = ["http://api.openweathermap.org/geo/1.0/direct?q=" ++ city ++ "," ++ region
            ++ "&limit=1&appid=" ++ env.OPENWEATHER_API_KEY]
    ∧ stdoutOf (main w env).1
        = ["Error fetching coordinates: city " ++ city ++ " not found\n"] := by
  have hgc := getCoordinates_of_decoded w env.OPENWEATHER_API_KEY city region resp [] hget hst hdec
  simp only at hgc
  have hmain := main_of_getCoordinates_error w env prog city region more _ _ hload hkey hargs hgc
  rw [hmain, hgc]
  refine ⟨rfl, rfl, ?_, ?_⟩
  · simp [httpCalls]
  · simp [stdoutOf, Errorf, String.ext_iff]

/-- The run `<program> Paris FR` against an endpoint that answers `[]`. -/
theorem main_city_not_found_witness :
    (getCoordinates (sampleWorld ⟨200, "[]"⟩ (.ok []) (.error ⟨"unused"⟩)) "k" "Paris" "FR").2
        = .error ⟨"city Paris not found"⟩
    ∧ (main (sampleWorld ⟨200, "[]"⟩ (.ok []) (.error ⟨"unused"⟩)) parisEnv).2 = .exited 1
    ∧ httpCalls (main (sampleWorld ⟨200, "[]"⟩ (.ok []) (.error ⟨"unused"⟩)) parisEnv).1
        = ["http://api.openweathermap.org/geo/1.0/direct?q=Paris,FR&limit=1&appid=k"]
    ∧ stdoutOf (main (sampleWorld ⟨200, "[]"⟩ (.ok []) (.error ⟨"unused"⟩)) parisEnv).1
        = ["Error fetching coordinates: city Paris not found\n"] :=
  main_city_not_found (sampleWorld ⟨200, "[]"⟩ (.ok []) (.error ⟨"unused"⟩)) parisEnv
    "weather" "Paris" "FR" [] ⟨200, "[]"⟩ rfl (by decide) rfl rfl rfl rfl

/-- C3: for every status other than 200 returned by the geocoding endpoint and
every response body, `getCoordinates` fails having requested the URL and attempted
no JSON decode; its trace and result are the same for every other world that
answers with the same status, whatever the body and the decoder are; and the
program, started with a key and the two arguments, exits with code 1 having
written only the line "Error fetching coordinates: unable to fetch coordinates for
city <city>" and having requested only the geocoding URL. -/
theorem getCoordinates_non200 {F : Type} (w : World F) (apiKey city region : String)
    (resp : Response)
    (hget : w.Get ("http://api.openweathermap.org/geo/1.0/direct?q=" ++ city ++ "," ++ region
      ++ "&limit=1&appid=" ++ apiKey) = .ok resp)
    (hst : resp.StatusCode ≠ 200) :
    (∃ err, (getCoordinates w apiKey city region).2 = .error err)
    ∧ decodeCalls (getCoordinates w apiKey city region).1 = []
    ∧ (∀ (w2 : World F) (body2 : String),
        w2.Get ("http://api.openweathermap.org/geo/1.0/direct?q=" ++ city ++ "," ++ region
          ++ "&limit=1&appid=" ++ apiKey) = .ok ⟨resp.StatusCode, body2⟩ →
        getCoordinates w2 apiKey city region = getCoordinates w apiKey city region)
    ∧ (∀ (env : Env) (prog : String) (more : List String),
        env.Load = .ok () → env.OPENWEATHER_API_KEY = apiKey → apiKey ≠ "" →
        env.Args = prog :: city :: region :: more →
        (main w env).2 = .exited 1
        ∧ decodeCalls (main w env).1 = []
        ∧ httpCalls (main w env).1
            = ["http://api.openweathermap.org/geo/1.0/direct?q=" ++ city ++ "," ++ region
                ++ "&limit=1&appid=" ++ apiKey]
        ∧ stdoutOf (main w env).1
            = ["Error fetching coordinates: unable to fetch coordinates for city " ++ city
                ++ "\n"]) := by
  have hgc := getCoordinates_of_status_ne w apiKey city region resp hget hst
  refine ⟨⟨_, by rw [hgc]⟩, by rw [hgc]; rfl, ?_, ?_⟩
  · intro w2 body2 hget2
    rw [hgc, getCoordinates_of_status_ne w2 apiKey city region _ hget2 hst]
  · intro env prog more hload hk hne hargs
    subst hk
    have hmain := main_of_getCoordinates_error w env prog city region more _ _ hload hne hargs hgc
    rw [hmain]
    refine ⟨rfl, ?_, ?_, ?_⟩
    · simp [decodeCalls]
    · simp [httpCalls]
    · simp [stdoutOf, Errorf, String.ext_iff]

/-- The scenario "geocoding endpoint returns HTTP 404", with a body that would
decode to a valid candidate list. -/
theorem getCoordinates_non200_witness :
    (main (sampleWorld ⟨404, "[paris]"⟩ (.ok [paris]) (.error ⟨"unused"⟩)) parisEnv).2
        = .exited 1
    ∧ decodeCalls (main (sampleWorld ⟨404, "[paris]"⟩ (.ok [paris]) (.error ⟨"unused"⟩))
        parisEnv).1 = []
    ∧ httpCalls (main (sampleWorld ⟨404, "[paris]"⟩ (.ok [paris]) (.error ⟨"unused"⟩))
        parisEnv).1
        = ["http://api.openweathermap.org/geo/1.0/direct?q=Paris,FR&limit=1&appid=k"]
    ∧ stdoutOf (main (sampleWorld ⟨404, "[paris]"⟩ (.ok [paris]) (.error ⟨"unused"⟩))
          parisEnv).1
        = ["Error fetching coordinates: unable to fetch coordinates for city Paris\n"] :=
  (getCoordinates_non200 (sampleWorld ⟨404, "[paris]"⟩ (.ok [paris]) (.error ⟨"unused"⟩))
    "k" "Paris" "FR" ⟨404, "[paris]"⟩ rfl (by decide)).2.2.2
    parisEnv "weather" [] rfl rfl (by decide) rfl

/-- C8, the claim as stated fails: on a 404 answer for the city `Paris` the error
returned is "unable to fetch coordinates for city Paris", and the words
"location not found for city" occur nowhere in it. -/
theorem getCoordinates_non200_message_counterexample :
    (getCoordinates (sampleWorld ⟨404, ""⟩ (.ok []) (.error ⟨"unused"⟩)) "k" "Paris" "FR").2
        = .error ⟨"unable to fetch coordinates for city Paris"⟩
    ∧ ¬ ("location not found for city".toList
          <:+: "unable to fetch coordinates for city Paris".toList) := by
  constructor
  · rfl
  · decide

/-- C8, amended: for every status other than 200 returned by the geocoding endpoint
and every city string, the error `getCoordinates` returns has the message
"unable to fetch coordinates for city <city>". -/
theorem getCoordinates_non200_message {F : Type} (w : World F)
    (apiKey city region : String) (resp : Response)
    (hget : w.Get ("http://api.openweathermap.org/geo/1.0/direct?q=" ++ city ++ "," ++ region
      ++ "&limit=1&appid=" ++ apiKey) = .ok resp)
    (hst : resp.StatusCode ≠ 200) :
    (getCoordinates w apiKey city region).2
      = .error ⟨"unable to fetch coordinates for city " ++ city⟩ := by
  rw [getCoordinates_of_status_ne w apiKey city region resp hget hst]
  rfl

/-- A 500 answer for the city `Austin`. -/
theorem getCoordinates_non200_message_witness :
    (getCoordinates (sampleWorld ⟨500, "oops"⟩ (.ok [austin]) (.error ⟨"unused"⟩))
        "k" "Austin" "Texas").2
      = .error ⟨"unable to fetch coordinates for city Austin"⟩ :=
  getCoordinates_non200_message (sampleWorld ⟨500, "oops"⟩ (.ok [austin]) (.error ⟨"unused"⟩))
    "k" "Austin" "Texas" ⟨500, "oops"⟩ rfl (by decide)

/-! ## The forecast loop -/

/-- At index 0 the loop skips the entry. -/
theorem forecastLoop_zero {F : Type} (w : World F) (l : List (DailyEntry F)) :
    forecastLoop w 0 l = forecastLoop w 1 l.tail := by
  cases l with
  | nil => rfl
  | cons d rest => simp [forecastLoop]

/-- From a positive index on, the loop returns when every remaining entry has a
weather description. -/
theorem forecastLoop_returned {F : Type} (w : World F) (l : List (DailyEntry F)) (i : Nat)
    (h : ∀ day ∈ l, day.Weather ≠ []) :
    (forecastLoop w (i + 1) l).2 = .returned := by
  induction l generalizing i with
  | nil => rfl
  | cons d rest ih =>
    have hd : d.Weather ≠ [] := h d (List.mem_cons_self _ _)
    have hr : ∀ day ∈ rest, day.Weather ≠ [] := fun day hm => h day (List.mem_cons_of_mem _ hm)
    cases hw : d.Weather with
    | nil => exact absurd hw hd
    | cons x xs => simp [forecastLoop, hw, ih (i + 1) hr]

/-- From a positive index on, the loop faults when some remaining entry has no
weather description. -/
theorem forecastLoop_panicked {F : Type} (w : World F) (l : List (DailyEntry F)) (i : Nat)
    (h : ∃ day ∈ l, day.Weather = []) :
    (forecastLoop w (i + 1) l).2 = .panicked 0 0 := by
  induction l generalizing i with
  | nil => simp at h
  | cons d rest ih =>
    cases hw : d.Weather with
    | nil => simp [forecastLoop, hw]
    | cons x xs =>
      have hr : ∃ day ∈ rest, day.Weather = [] := by
        obtain ⟨day, hm, hday⟩ := h
        rcases List.mem_cons.mp hm with rfl | hm
        · rw [hw] at hday; exact absurd hday (List.cons_ne_nil _ _)
        · exact ⟨day, hm, hday⟩
      simp [forecastLoop, hw, ih (i + 1) hr]

/-- The loop writes to standard output only, one line per entry, as long as the
entries have a weather description. -/
theorem forecastLoop_stdout_length {F : Type} (w : World F) (l : List (DailyEntry F)) (i : Nat)
    (h : ∀ day ∈ l, day.Weather ≠ []) :
    (stdoutOf (forecastLoop w (i + 1) l).1).length = l.length
    ∧ httpCalls (forecastLoop w (i + 1) l).1 = []
    ∧ decodeCalls (forecastLoop w (i + 1) l).1 = [] := by
  induction l generalizing i with
  | nil => exact ⟨rfl, rfl, rfl⟩
  | cons d rest ih =>
    have hd : d.Weather ≠ [] := h d (List.mem_cons_self _ _)
    have hr : ∀ day ∈ rest, day.Weather ≠ [] := fun day hm => h day (List.mem_cons_of_mem _ hm)
    cases hw : d.Weather with
    | nil => exact absurd hw hd
    | cons x xs =>
      obtain ⟨h1, h2, h3⟩ := ih (i + 1) hr
      simp [forecastLoop, hw, stdoutOf, httpCalls, decodeCalls, h1, h2, h3]

/-- The line the loop writes for the entry at offset `j`. -/
theorem forecastLoop_stdout_get {F : Type} (w : World F) (l : List (DailyEntry F)) (i j : Nat)
    (day : DailyEntry F) (x : WeatherDesc)
    (h : ∀ day ∈ l, day.Weather ≠ [])
    (hj : l[j]? = some day) (hx : day.Weather.head? = some x) :
    (stdoutOf (forecastLoop w (i + 1) l).1)[j]?
      = some ("Day " ++ toString (i + 1 + j) ++ ": " ++ w.fmtF1 day.Temp.Day ++ "°F, "
          ++ x.Description ++ "\n") := by
  induction l generalizing i j with
  | nil => simp at hj
  | cons d rest ih =>
    have hd : d.Weather ≠ [] := h d (List.mem_cons_self _ _)
    have hr : ∀ day ∈ rest, day.Weather ≠ [] := fun day hm => h day (List.mem_cons_of_mem _ hm)
    cases hw : d.Weather with
    | nil => exact absurd hw hd
    | cons y ys =>
      cases j with
      | zero =>
        simp only [List.getElem?_cons_zero, Option.some.injEq] at hj
        subst hj
        rw [hw] at hx
        simp only [List.head?_cons, Option.some.injEq] at hx
        subst hx
        simp [forecastLoop, hw, stdoutOf]
      | succ j =>
        simp only [List.getElem?_cons_succ] at hj
        have := ih (i + 1) j hr hj
        simp only [forecastLoop, hw, stdoutOf]
        simp only [if_neg (Nat.succ_ne_zero i), List.getElem?_cons_succ]
        rw [this]
        have e : i + 1 + 1 + j = i + 1 + (j + 1) := by omega
        rw [e]

/-- When the loop meets an entry without a weather description it faults, having
written the lines of the entries before it. -/
theorem forecastLoop_prefix {F : Type} (w : World F) (pre post : List (DailyEntry F))
    (bad : DailyEntry F) (i : Nat)
    (hbad : bad.Weather = []) (h : ∀ day ∈ pre, day.Weather ≠ []) :
    forecastLoop w (i + 1) (pre ++ bad :: post)
      = ((forecastLoop w (i + 1) pre).1, .panicked 0 0) := by
  induction pre generalizing i with
  | nil => simp [forecastLoop, hbad]
  | cons d rest ih =>
    have hd : d.Weather ≠ [] := h d (List.mem_cons_self _ _)
    have hr : ∀ day ∈ rest, day.Weather ≠ [] := fun day hm => h day (List.mem_cons_of_mem _ hm)
    cases hw : d.Weather with
    | nil => exact absurd hw hd
    | cons x xs => simp [forecastLoop, hw, ih (i + 1) hr]

/-! ## The weather client -/

/-- What `getWeather` does on a 200 response whose body decodes to `data`, the
current weather list being non-empty. -/
theorem getWeather_of_decoded {F : Type} (w : World F) (apiKey : String) (lat lon : F)
    (resp : Response) (data : OneCallResponse F) (c0 : WeatherDesc) (cs : List WeatherDesc)
    (hget : w.Get (weatherUrl w apiKey lat lon) = .ok resp)
    (hst : resp.StatusCode = 200)
    (hdec : w.decodeOneCall resp.Body = .ok data)
    (hcur : data.Current.Weather = c0 :: cs) :
    getWeather w apiKey lat lon
      = (.httpGet (weatherUrl w apiKey lat lon) :: .jsonDecode resp.Body
          :: .stdout ("Current Weather: " ++ w.fmtF1 data.Current.Temp ++ "°F, "
              ++ c0.Description ++ "\n")
          :: .stdout "7-Day Forecast:\n" :: (forecastLoop w 1 data.Daily.tail).1,
         (forecastLoop w 1 data.Daily.tail).2) := by
  unfold getWeather
  simp only [hget, StatusOK, hst, hdec, hcur, forecastLoop_zero]
  simp

/-- What `getWeather` does on a 200 response whose body decodes to a record with an
empty current weather list. -/
theorem getWeather_of_current_empty {F : Type} (w : World F) (apiKey : String) (lat lon : F)
    (resp : Response) (data : OneCallResponse F)
    (hget : w.Get (weatherUrl w apiKey lat lon) = .ok resp)
    (hst : resp.StatusCode = 200)
    (hdec : w.decodeOneCall resp.Body = .ok data)
    (hcur : data.Current.Weather = []) :
    getWeather w apiKey lat lon
      = ([.httpGet (weatherUrl w apiKey lat lon), .jsonDecode resp.Body], .panicked 0 0) := by
  unfold getWeather
  simp only [hget, StatusOK, hst, hdec, hcur]
  simp

/-- The entries of a list from index 1 on are the elements of its tail. -/
theorem mem_tail_iff_getElem {α : Type} (l : List α) (a : α) :
    a ∈ l.tail ↔ ∃ k, 1 ≤ k ∧ l[k]? = some a := by
  cases l with
  | nil => simp
  | cons d rest =>
    simp only [List.tail_cons, List.mem_iff_getElem?]
    constructor
    · rintro ⟨j, hj⟩
      exact ⟨j + 1, by omega, by simpa using hj⟩
    · rintro ⟨k, hk, hget⟩
      obtain ⟨j, rfl⟩ : ∃ j, k = j + 1 := ⟨k - 1, by omega⟩
      exact ⟨j, by simpa using hget⟩

/-- The complete rendering: when the current weather list and the weather lists of
the daily entries from index 1 on are non-empty, `getWeather` returns, having
written the current line, the header and one line per daily entry from index 1
on. -/
theorem getWeather_rendering {F : Type} (w : World F) (apiKey : String) (lat lon : F)
    (resp : Response) (data : OneCallResponse F) (c0 : WeatherDesc)
    (hget : w.Get (weatherUrl w apiKey lat lon) = .ok resp)
    (hst : resp.StatusCode = 200)
    (hdec : w.decodeOneCall resp.Body = .ok data)
    (hcur : data.Current.Weather.head? = some c0)
    (htail : ∀ day ∈ data.Daily.tail, day.Weather ≠ []) :
    (getWeather w apiKey lat lon).2 = .returned
    ∧ ∃ forecast : List String,
        stdoutOf (getWeather w apiKey lat lon).1
          = ("Current Weather: " ++ w.fmtF1 data.Current.Temp ++ "°F, "
              ++ c0.Description ++ "\n") :: "7-Day Forecast:\n" :: forecast
        ∧ forecast.length = data.Daily.length - 1
        ∧ ∀ (k : Nat) (day : DailyEntry F) (x : WeatherDesc), 1 ≤ k →
            data.Daily[k]? = some day → day.Weather.head? = some x →
            forecast[k - 1]? = some ("Day " ++ toString k ++ ": " ++ w.fmtF1 day.Temp.Day
              ++ "°F, " ++ x.Description ++ "\n") := by
  obtain ⟨cs, hc⟩ : ∃ cs, data.Current.Weather = c0 :: cs := by
    cases hw : data.Current.Weather with
    | nil => rw [hw] at hcur; simp at hcur
    | cons y ys =>
      rw [hw] at hcur
      simp only [List.head?_cons, Option.some.injEq] at hcur
      exact ⟨ys, by rw [hcur]⟩
  rw [getWeather_of_decoded w apiKey lat lon resp data c0 cs hget hst hdec hc]
  refine ⟨forecastLoop_returned w _ 0 htail, stdoutOf (forecastLoop w 1 data.Daily.tail).1,
    rfl, ?_, ?_⟩
  · rw [(forecastLoop_stdout_length w _ 0 htail).1, List.length_tail]
  · intro k day x hk hday hx
    obtain ⟨j, rfl⟩ : ∃ j, k = j + 1 := ⟨k - 1, by omega⟩
    have hj : data.Daily.tail[j]? = some day := by
      cases hd : data.Daily with
      | nil => rw [hd] at hday; simp at hday
      | cons d rest => rw [hd] at hday; simpa using hday
    have := forecastLoop_stdout_get w _ 0 j day x htail hj hx
    simp only [Nat.add_sub_cancel]
    rw [this]
    have e : 0 + 1 + j = j + 1 := by omega
    rw [e]

/-- A list splits around any of its entries. -/
theorem split_at_getElem {α : Type} (l : List α) (j : Nat) (a : α) (h : l[j]? = some a) :
    l = l.take j ++ a :: l.drop (j + 1) := by
  induction l generalizing j with
  | nil => simp at h
  | cons d rest ih =>
    cases j with
    | zero => simp at h; simp [h]
    | succ j =>
      simp only [List.getElem?_cons_succ] at h
      simp only [List.take_succ_cons, List.drop_succ_cons, List.cons_append, List.cons.injEq,
        true_and]
      exact ih j h

/-- C4: when the weather endpoint answers 200 with a body decoding to a record
whose daily array has length 8, every weather list being non-empty, `getWeather`
writes the current line, the header "7-Day Forecast:" and then exactly 7 lines,
the k-th of them (k = 1..7) being "Day k: <daily[k].temp.day>°F,
<daily[k].weather[0].description>"; the 7 lines come from the indices 1 to 7, none
from index 0. -/
theorem getWeather_eight_days {F : Type} (w : World F) (apiKey : String) (lat lon : F)
    (resp : Response) (data : OneCallResponse F)
    (hget : w.Get (weatherUrl w apiKey lat lon) = .ok resp)
    (hst : resp.StatusCode = 200)
    (hdec : w.decodeOneCall resp.Body = .ok data)
    (hlen : data.Daily.length = 8)
    (hcur : data.Current.Weather ≠ [])
    (hday : ∀ day ∈ data.Daily, day.Weather ≠ []) :
    ∃ (c0 : WeatherDesc) (forecast : List String),
      data.Current.Weather.head? = some c0
      ∧ stdoutOf (getWeather w apiKey lat lon).1
          = ("Current Weather: " ++ w.fmtF1 data.Current.Temp ++ "°F, "
              ++ c0.Description ++ "\n") :: "7-Day Forecast:\n" :: forecast
      ∧ forecast.length = 7
      ∧ ∀ k : Nat, 1 ≤ k → k ≤ 7 →
          ∃ (day : DailyEntry F) (x : WeatherDesc),
            data.Daily[k]? = some day ∧ day.Weather.head? = some x
            ∧ forecast[k - 1]? = some ("Day " ++ toString k ++ ": " ++ w.fmtF1 day.Temp.Day
                ++ "°F, " ++ x.Description ++ "\n") := by
  obtain ⟨c0, hc0⟩ : ∃ c0, data.Current.Weather.head? = some c0 := by
    cases hw : data.Current.Weather with
    | nil => exact absurd hw hcur
    | cons y ys => exact ⟨y, rfl⟩
  have htail : ∀ day ∈ data.Daily.tail, day.Weather ≠ [] :=
    fun day hm => hday day (List.mem_of_mem_tail hm)
  obtain ⟨-, forecast, hout, hflen, hline⟩ :=
    getWeather_rendering w apiKey lat lon resp data c0 hget hst hdec hc0 htail
  refine ⟨c0, forecast, hc0, hout, by omega, ?_⟩
  intro k hk1 hk7
  have hk : k < data.Daily.length := by omega
  have hmem : data.Daily[k] ∈ data.Daily := List.getElem_mem hk
  obtain ⟨x, hx⟩ : ∃ x, (data.Daily[k]).Weather.head? = some x := by
    cases hw : (data.Daily[k]).Weather with
    | nil => exact absurd hw (hday _ hmem)
    | cons y ys => exact ⟨y, rfl⟩
  have hget? : data.Daily[k]? = some data.Daily[k] := List.getElem?_eq_getElem hk
  exact ⟨data.Daily[k], x, hget?, hx, hline k _ x hk1 hget? hx⟩

/-- The scenario `current.temp=72.849`, "clear sky", `daily=[d0..d7]`. -/
theorem getWeather_eight_days_witness :
    ∃ (c0 : WeatherDesc) (forecast : List String),
      clearSky.Weather.head? = some c0
      ∧ stdoutOf (getWeather (weatherWorld ⟨clearSky, fullWeek⟩) "k" 30270 (-97740)).1
          = ("Current Weather: " ++ sampleFmtF1 72849 ++ "°F, "
              ++ c0.Description ++ "\n") :: "7-Day Forecast:\n" :: forecast
      ∧ forecast.length = 7
      ∧ ∀ k : Nat, 1 ≤ k → k ≤ 7 →
          ∃ (day : DailyEntry Int) (x : WeatherDesc),
            fullWeek[k]? = some day ∧ day.Weather.head? = some x
            ∧ forecast[k - 1]? = some ("Day " ++ toString k ++ ": " ++ sampleFmtF1 day.Temp.Day
                ++ "°F, " ++ x.Description ++ "\n") :=
  getWeather_eight_days (weatherWorld ⟨clearSky, fullWeek⟩) "k" 30270 (-97740)
    ⟨200, "onecall"⟩ ⟨clearSky, fullWeek⟩ rfl rfl rfl rfl (by decide) (by decide)

/-- C10: when the weather endpoint answers 200 with a body decoding to a record
whose current weather list and every daily weather list are non-empty, for a daily
array of any length n, `getWeather` returns without an index fault, having written
the current line, the header and exactly max(n-1, 0) forecast lines, the line
"Day k: ..." of each index k with 1 ≤ k < n. -/
theorem getWeather_no_fault {F : Type} (w : World F) (apiKey : String) (lat lon : F)
    (resp : Response) (data : OneCallResponse F)
    (hget : w.Get (weatherUrl w apiKey lat lon) = .ok resp)
    (hst : resp.StatusCode = 200)
    (hdec : w.decodeOneCall resp.Body = .ok data)
    (hcur : data.Current.Weather ≠ [])
    (hday : ∀ day ∈ data.Daily, day.Weather ≠ []) :
    (getWeather w apiKey lat lon).2 = .returned
    ∧ ∃ (c0 : WeatherDesc) (forecast : List String),
        data.Current.Weather.head? = some c0
        ∧ stdoutOf (getWeather w apiKey lat lon).1
            = ("Current Weather: " ++ w.fmtF1 data.Current.Temp ++ "°F, "
                ++ c0.Description ++ "\n") :: "7-Day Forecast:\n" :: forecast
        ∧ (forecast.length : Int) = max ((data.Daily.length : Int) - 1) 0
        ∧ ∀ k : Nat, 1 ≤ k → k < data.Daily.length →
            ∃ (day : DailyEntry F) (x : WeatherDesc),
              data.Daily[k]? = some day ∧ day.Weather.head? = some x
              ∧ forecast[k - 1]? = some ("Day " ++ toString k ++ ": "
                  ++ w.fmtF1 day.Temp.Day ++ "°F, " ++ x.Description ++ "\n") := by
  obtain ⟨c0, hc0⟩ : ∃ c0, data.Current.Weather.head? = some c0 := by
    cases hw : data.Current.Weather with
    | nil => exact absurd hw hcur
    | cons y ys => exact ⟨y, rfl⟩
  have htail : ∀ day ∈ data.Daily.tail, day.Weather ≠ [] :=
    fun day hm => hday day (List.mem_of_mem_tail hm)
  obtain ⟨hret, forecast, hout, hflen, hline⟩ :=
    getWeather_rendering w apiKey lat lon resp data c0 hget hst hdec hc0 htail
  refine ⟨hret, c0, forecast, hc0, hout, by omega, ?_⟩
  intro k hk1 hk
  have hmem : data.Daily[k] ∈ data.Daily := List.getElem_mem hk
  obtain ⟨x, hx⟩ : ∃ x, (data.Daily[k]).Weather.head? = some x := by
    cases hw : (data.Daily[k]).Weather with
    | nil => exact absurd hw (hday _ hmem)
    | cons y ys => exact ⟨y, rfl⟩
  have hget? : data.Daily[k]? = some data.Daily[k] := List.getElem?_eq_getElem hk
  exact ⟨data.Daily[k], x, hget?, hx, hline k _ x hk1 hget? hx⟩

/-- The scenario with eight daily entries, and a record with an empty daily array,
for which the current line and the header are written and no forecast line. -/
theorem getWeather_no_fault_witness :
    ((getWeather (weatherWorld ⟨clearSky, fullWeek⟩) "k" 30270 (-97740)).2 = .returned
      ∧ ∃ (c0 : WeatherDesc) (forecast : List String),
          clearSky.Weather.head? = some c0
          ∧ stdoutOf (getWeather (weatherWorld ⟨clearSky, fullWeek⟩) "k" 30270 (-97740)).1
              = ("Current Weather: " ++ sampleFmtF1 72849 ++ "°F, "
                  ++ c0.Description ++ "\n") :: "7-Day Forecast:\n" :: forecast
          ∧ (forecast.length : Int) = max ((fullWeek.length : Int) - 1) 0
          ∧ ∀ k : Nat, 1 ≤ k → k < fullWeek.length →
              ∃ (day : DailyEntry Int) (x : WeatherDesc),
                fullWeek[k]? = some day ∧ day.Weather.head? = some x
                ∧ forecast[k - 1]? = some ("Day " ++ toString k ++ ": "
                    ++ sampleFmtF1 day.Temp.Day ++ "°F, " ++ x.Description ++ "\n"))
    ∧ (getWeather (weatherWorld ⟨clearSky, []⟩) "k" 30270 (-97740)).2 = .returned :=
  ⟨getWeather_no_fault (weatherWorld ⟨clearSky, fullWeek⟩) "k" 30270 (-97740)
      ⟨200, "onecall"⟩ ⟨clearSky, fullWeek⟩ rfl rfl rfl (by decide) (by decide),
   (getWeather_no_fault (weatherWorld ⟨clearSky, []⟩) "k" 30270 (-97740)
      ⟨200, "onecall"⟩ ⟨clearSky, []⟩ rfl rfl rfl (by decide) (by decide)).1⟩

/-- C6, the claim as stated fails: with an empty weather list in the daily entry at
index 0 (and descriptions everywhere else) `getWeather` returns normally and the
rendering is complete. -/
theorem getWeather_fault_counterexample :
    (weekBareToday[0]?).map (fun day => day.Weather) = some []
    ∧ getWeather (weatherWorld ⟨clearSky, weekBareToday⟩) "k" 30270 (-97740)
      = ([.httpGet ("https://api.openweathermap.org/data/3.0/onecall?lat=30.270000"
            ++ "&lon=-97.740000&exclude=minutely,hourly,alerts&units=imperial&appid=k"),
          .jsonDecode "onecall",
          .stdout "Current Weather: 72.8°F, clear sky\n",
          .stdout "7-Day Forecast:\n",
          .stdout "Day 1: 71.0°F, light rain\n",
          .stdout "Day 2: 72.0°F, light rain\n",
          .stdout "Day 3: 73.0°F, light rain\n",
          .stdout "Day 4: 74.0°F, light rain\n",
          .stdout "Day 5: 75.0°F, light rain\n",
          .stdout "Day 6: 76.0°F, light rain\n",
          .stdout "Day 7: 77.0°F, light rain\n"], .returned) := by
  constructor
  · rfl
  · decide

/-- C6, amended: for a successfully decoded weather response, `getWeather` ends in
an index fault when the weather list of the current record or of the daily entry at
some index k ≥ 1 is empty, and returns normally otherwise; the weather list of the
daily entry at index 0 is never accessed. -/
theorem getWeather_fault_iff {F : Type} (w : World F) (apiKey : String) (lat lon : F)
    (resp : Response) (data : OneCallResponse F)
    (hget : w.Get (weatherUrl w apiKey lat lon) = .ok resp)
    (hst : resp.StatusCode = 200)
    (hdec : w.decodeOneCall resp.Body = .ok data) :
    ((data.Current.Weather = []
        ∨ ∃ (k : Nat) (day : DailyEntry F), 1 ≤ k ∧ data.Daily[k]? = some day ∧ day.Weather = []) →
      (getWeather w apiKey lat lon).2 = .panicked 0 0)
    ∧ (¬ (data.Current.Weather = []
        ∨ ∃ (k : Nat) (day : DailyEntry F), 1 ≤ k ∧ data.Daily[k]? = some day ∧ day.Weather = []) →
      (getWeather w apiKey lat lon).2 = .returned) := by
  constructor
  · intro h
    cases hw : data.Current.Weather with
    | nil => rw [getWeather_of_current_empty w apiKey lat lon resp data hget hst hdec hw]
    | cons c0 cs =>
      rw [getWeather_of_decoded w apiKey lat lon resp data c0 cs hget hst hdec hw]
      rcases h with h | ⟨k, day, hk, hday, hempty⟩
      · rw [hw] at h; exact absurd h (List.cons_ne_nil _ _)
      · exact forecastLoop_panicked w _ 0
          ⟨day, (mem_tail_iff_getElem _ _).mpr ⟨k, hk, hday⟩, hempty⟩
  · intro h
    rw [not_or] at h
    obtain ⟨hcur, hno⟩ := h
    cases hw : data.Current.Weather with
    | nil => exact absurd hw hcur
    | cons c0 cs =>
      rw [getWeather_of_decoded w apiKey lat lon resp data c0 cs hget hst hdec hw]
      apply forecastLoop_returned w _ 0
      intro day hm hempty
      obtain ⟨k, hk, hday⟩ := (mem_tail_iff_getElem _ _).mp hm
      exact hno ⟨k, day, hk, hday, hempty⟩

/-- An empty list at index 3 faults, an empty list at index 0 does not. -/
theorem getWeather_fault_iff_witness :
    (getWeather (weatherWorld ⟨clearSky, weekBareThird⟩) "k" 30270 (-97740)).2 = .panicked 0 0
    ∧ (getWeather (weatherWorld ⟨clearSky, weekBareToday⟩) "k" 30270 (-97740)).2 = .returned :=
  ⟨(getWeather_fault_iff (weatherWorld ⟨clearSky, weekBareThird⟩) "k" 30270 (-97740)
      ⟨200, "onecall"⟩ ⟨clearSky, weekBareThird⟩ rfl rfl rfl).1
      (Or.inr ⟨3, bareDay 73000, by decide, rfl, rfl⟩),
   (getWeather_fault_iff (weatherWorld ⟨clearSky, weekBareToday⟩) "k" 30270 (-97740)
      ⟨200, "onecall"⟩ ⟨clearSky, weekBareToday⟩ rfl rfl rfl).2 (by
        rintro (h | ⟨k, day, hk, hday, hempty⟩)
        · exact absurd h (by decide)
        · have hk8 : k < 8 := by
            by_contra hge
            have : weekBareToday[k]? = none := List.getElem?_eq_none (by simp [weekBareToday]; omega)
            rw [this] at hday
            exact absurd hday (by simp)
          interval_cases k <;>
            simp [weekBareToday, rainyDay] at hday <;> subst hday <;> simp at hempty)⟩

/-- C5, the claim as stated fails: with an empty weather list in the daily entry at
index 3 the process ends in an index fault after the current line, the header and
the lines of day 1 and day 2 have been written. -/
theorem getWeather_partial_rendering_counterexample :
    (weekBareThird[3]?).map (fun day => day.Weather) = some []
    ∧ getWeather (weatherWorld ⟨clearSky, weekBareThird⟩) "k" 30270 (-97740)
      = ([.httpGet ("https://api.openweathermap.org/data/3.0/onecall?lat=30.270000"
            ++ "&lon=-97.740000&exclude=minutely,hourly,alerts&units=imperial&appid=k"),
          .jsonDecode "onecall",
          .stdout "Current Weather: 72.8°F, clear sky\n",
          .stdout "7-Day Forecast:\n",
          .stdout "Day 1: 71.0°F, light rain\n",
          .stdout "Day 2: 72.0°F, light rain\n"], .panicked 0 0) := by
  constructor
  · rfl
  · decide

/-- C5, amended: on a weather-step failure by transport error, non-200 status or
malformed JSON the process exits with code 1 having written only its diagnostic
line, and on an empty weather list in the current record it ends in an index fault
having written nothing: in these cases none of the "Current Weather:" line, the
"7-Day Forecast:" header or a "Day N:" line has been written.  On an empty weather
list in the daily entry at an index k ≥ 1, the current list and the lists at the
indices 1..k-1 being non-empty, the process ends in an index fault after the
current line, the header and the k-1 lines "Day 1" to "Day k-1" have been
written. -/
theorem getWeather_failure_output {F : Type} (w : World F) (apiKey : String) (lat lon : F) :
    (∀ err : GoError, w.Get (weatherUrl w apiKey lat lon) = .error err →
        (getWeather w apiKey lat lon).2 = .exited 1
        ∧ stdoutOf (getWeather w apiKey lat lon).1 = ["Error: " ++ err.Error ++ "\n"])
    ∧ (∀ resp : Response, w.Get (weatherUrl w apiKey lat lon) = .ok resp →
        resp.StatusCode ≠ 200 →
        (getWeather w apiKey lat lon).2 = .exited 1
        ∧ stdoutOf (getWeather w apiKey lat lon).1 = ["Error: Unable to fetch weather data!\n"])
    ∧ (∀ (resp : Response) (err : GoError), w.Get (weatherUrl w apiKey lat lon) = .ok resp →
        resp.StatusCode = 200 → w.decodeOneCall resp.Body = .error err →
        (getWeather w apiKey lat lon).2 = .exited 1
        ∧ stdoutOf (getWeather w apiKey lat lon).1
            = ["Error decoding JSON: " ++ err.Error ++ "\n"])
    ∧ (∀ (resp : Response) (data : OneCallResponse F),
        w.Get (weatherUrl w apiKey lat lon) = .ok resp →
        resp.StatusCode = 200 → w.decodeOneCall resp.Body = .ok data →
        data.Current.Weather = [] →
        (getWeather w apiKey lat lon).2 = .panicked 0 0
        ∧ stdoutOf (getWeather w apiKey lat lon).1 = [])
    ∧ (∀ (resp : Response) (data : OneCallResponse F) (c0 : WeatherDesc) (k : Nat)
        (bad : DailyEntry F),
        w.Get (weatherUrl w apiKey lat lon) = .ok resp →
        resp.StatusCode = 200 → w.decodeOneCall resp.Body = .ok data →
        data.Current.Weather.head? = some c0 →
        1 ≤ k → data.Daily[k]? = some bad → bad.Weather = [] →
        (∀ (j : Nat) (day : DailyEntry F), 1 ≤ j → j < k → data.Daily[j]? = some day →
          day.Weather ≠ []) →
        (getWeather w apiKey lat lon).2 = .panicked 0 0
        ∧ ∃ forecast : List String,
            stdoutOf (getWeather w apiKey lat lon).1
              = ("Current Weather: " ++ w.fmtF1 data.Current.Temp ++ "°F, "
                  ++ c0.Description ++ "\n") :: "7-Day Forecast:\n" :: forecast
            ∧ forecast.length = k - 1
            ∧ ∀ (j : Nat) (day : DailyEntry F) (x : WeatherDesc), 1 ≤ j → j < k →
                data.Daily[j]? = some day → day.Weather.head? = some x →
                forecast[j - 1]? = some ("Day " ++ toString j ++ ": "
                  ++ w.fmtF1 day.Temp.Day ++ "°F, " ++ x.Description ++ "\n")) := by
  refine ⟨?_, ?_, ?_, ?_, ?_⟩
  · intro err hget
    simp [getWeather, hget, stdoutOf]
  · intro resp hget hst
    simp [getWeather, hget, StatusOK, hst, stdoutOf]
  · intro resp err hget hst hdec
    simp [getWeather, hget, StatusOK, hst, hdec, stdoutOf]
  · intro resp data hget hst hdec hcur
    rw [getWeather_of_current_empty w apiKey lat lon resp data hget hst hdec hcur]
    exact ⟨rfl, rfl⟩
  · intro resp data c0 k bad hget hst hdec hc0 hk hbadat hbad hbefore
    obtain ⟨cs, hc⟩ : ∃ cs, data.Current.Weather = c0 :: cs := by
      cases hw : data.Current.Weather with
      | nil => rw [hw] at hc0; simp at hc0
      | cons y ys =>
        rw [hw] at hc0
        simp only [List.head?_cons, Option.some.injEq] at hc0
        exact ⟨ys, by rw [hc0]⟩
    obtain ⟨m, rfl⟩ : ∃ m, k = m + 1 := ⟨k - 1, by omega⟩
    have htl : data.Daily.tail[m]? = some bad := by
      rw [List.getElem?_tail]; exact hbadat
    have hsplit := split_at_getElem data.Daily.tail m bad htl
    have hpre : ∀ day ∈ data.Daily.tail.take m, day.Weather ≠ [] := by
      intro day hm
      obtain ⟨i, hi⟩ := List.mem_iff_getElem?.mp hm
      rw [List.getElem?_take] at hi
      split at hi
      · next hlt =>
        rw [List.getElem?_tail] at hi
        exact hbefore (i + 1) day (by omega) (by omega) hi
      · exact absurd hi (by simp)
    have hmlt : m < data.Daily.tail.length := by
      by_contra hge
      rw [List.getElem?_eq_none (by omega)] at htl
      exact absurd htl (by simp)
    rw [getWeather_of_decoded w apiKey lat lon resp data c0 cs hget hst hdec hc, hsplit,
      forecastLoop_prefix w _ _ bad 0 hbad hpre]
    refine ⟨rfl, stdoutOf (forecastLoop w 1 (data.Daily.tail.take m)).1, rfl, ?_, ?_⟩
    · rw [(forecastLoop_stdout_length w _ 0 hpre).1, List.length_take]
      omega
    · intro j day x hj1 hjk hday hx
      obtain ⟨i, rfl⟩ : ∃ i, j = i + 1 := ⟨j - 1, by omega⟩
      have hi : (data.Daily.tail.take m)[i]? = some day := by
        rw [List.getElem?_take, if_pos (by omega), List.getElem?_tail]
        exact hday
      have := forecastLoop_stdout_get w _ 0 i day x hpre hi hx
      simp only [Nat.add_sub_cancel]
      rw [this]
      have e : 0 + 1 + i = i + 1 := by omega
      rw [e]

/-- The five failure kinds on concrete runs: a transport error, a 503 answer, a
body that does not decode, an empty current weather list, and an empty weather
list at daily index 3. -/
theorem getWeather_failure_output_witness :
    ((getWeather offlineWorld "k" 30270 (-97740)).2 = .exited 1
      ∧ stdoutOf (getWeather offlineWorld "k" 30270 (-97740)).1
          = ["Error: " ++ "connection refused" ++ "\n"])
    ∧ ((getWeather (sampleWorld ⟨503, ""⟩ (.ok [austin]) (.ok ⟨clearSky, fullWeek⟩))
          "k" 30270 (-97740)).2 = .exited 1
      ∧ stdoutOf (getWeather (sampleWorld ⟨503, ""⟩ (.ok [austin]) (.ok ⟨clearSky, fullWeek⟩))
          "k" 30270 (-97740)).1 = ["Error: Unable to fetch weather data!\n"])
    ∧ ((getWeather (sampleWorld ⟨200, "<html>"⟩ (.ok [austin]) (.error ⟨"invalid character"⟩))
          "k" 30270 (-97740)).2 = .exited 1
      ∧ stdoutOf (getWeather
          (sampleWorld ⟨200, "<html>"⟩ (.ok [austin]) (.error ⟨"invalid character"⟩))
          "k" 30270 (-97740)).1 = ["Error decoding JSON: " ++ "invalid character" ++ "\n"])
    ∧ ((getWeather (weatherWorld ⟨⟨72849, []⟩, fullWeek⟩) "k" 30270 (-97740)).2 = .panicked 0 0
      ∧ stdoutOf (getWeather (weatherWorld ⟨⟨72849, []⟩, fullWeek⟩) "k" 30270 (-97740)).1 = [])
    ∧ (getWeather (weatherWorld ⟨clearSky, weekBareThird⟩) "k" 30270 (-97740)).2
        = .panicked 0 0 :=
  ⟨(getWeather_failure_output offlineWorld "k" 30270 (-97740)).1 ⟨"connection refused"⟩ rfl,
   (getWeather_failure_output (sampleWorld ⟨503, ""⟩ (.ok [austin]) (.ok ⟨clearSky, fullWeek⟩))
      "k" 30270 (-97740)).2.1 ⟨503, ""⟩ rfl (by decide),
   (getWeather_failure_output
      (sampleWorld ⟨200, "<html>"⟩ (.ok [austin]) (.error ⟨"invalid character"⟩))
      "k" 30270 (-97740)).2.2.1 ⟨200, "<html>"⟩ ⟨"invalid character"⟩ rfl rfl rfl,
   (getWeather_failure_output (weatherWorld ⟨⟨72849, []⟩, fullWeek⟩) "k" 30270 (-97740)).2.2.2.1
      ⟨200, "onecall"⟩ ⟨⟨72849, []⟩, fullWeek⟩ rfl rfl rfl rfl,
   ((getWeather_failure_output (weatherWorld ⟨clearSky, weekBareThird⟩)
      "k" 30270 (-97740)).2.2.2.2
      ⟨200, "onecall"⟩ ⟨clearSky, weekBareThird⟩ ⟨"clear sky"⟩ 3 (bareDay 73000)
      rfl rfl rfl rfl (by decide) rfl rfl (by
        intro j day hj1 hj3 hday
        interval_cases j <;>
          simp [weekBareThird, rainyDay] at hday <;> subst hday <;> simp)).1⟩

/-! ## The rendering of temperatures -/

/-- The decimal digit characters are digits. -/
theorem digitChar_isDigit (n : Nat) (h : n < 10) : (Nat.digitChar n).isDigit = true := by
  interval_cases n <;> rfl

/-- The decimal digit loop of `toString` produces digits only. -/
theorem toDigitsCore_isDigit (fuel n : Nat) (ds : List Char)
    (h : ∀ c ∈ ds, c.isDigit = true) :
    ∀ c ∈ Nat.toDigitsCore 10 fuel n ds, c.isDigit = true := by
  induction fuel generalizing n ds with
  | zero => simpa [Nat.toDigitsCore] using h
  | succ fuel ih =>
    have hd : ∀ c ∈ Nat.digitChar (n % 10) :: ds, c.isDigit = true := by
      intro c hc
      rcases List.mem_cons.mp hc with rfl | hc
      · exact digitChar_isDigit _ (Nat.mod_lt _ (by decide))
      · exact h c hc
    simp only [Nat.toDigitsCore]
    split
    · exact hd
    · exact ih _ _ hd

/-- The decimal digit loop of `toString` produces at least one digit. -/
theorem toDigitsCore_ne_nil (fuel n : Nat) (ds : List Char) (h : ds ≠ [] ∨ 0 < fuel) :
    Nat.toDigitsCore 10 fuel n ds ≠ [] := by
  induction fuel generalizing n ds with
  | zero =>
    rcases h with h | h
    · simpa [Nat.toDigitsCore] using h
    · exact absurd h (by decide)
  | succ fuel ih =>
    simp only [Nat.toDigitsCore]
    split
    · exact List.cons_ne_nil _ _
    · exact ih _ _ (Or.inl (List.cons_ne_nil _ _))

/-- The decimal rendering of a natural number is a non-empty run of digits. -/
theorem toString_nat_digits (n : Nat) :
    (toString n).toList ≠ [] ∧ ∀ c ∈ (toString n).toList, c.isDigit = true := by
  show (Nat.repr n).toList ≠ [] ∧ ∀ c ∈ (Nat.repr n).toList, c.isDigit = true
  simp only [Nat.repr, Nat.toDigits, String.toList, List.asString]
  exact ⟨toDigitsCore_ne_nil _ _ _ (Or.inr (Nat.succ_pos _)),
    toDigitsCore_isDigit _ _ _ (by simp)⟩

/-- The decimal rendering of a number below ten is its one digit. -/
theorem toString_nat_lt_ten (n : Nat) (h : n < 10) :
    (toString n).toList = [Nat.digitChar n] := by
  show (Nat.repr n).toList = [Nat.digitChar n]
  simp only [Nat.repr, Nat.toDigits, String.toList, List.asString, Nat.toDigitsCore]
  have h1 : n / 10 = 0 := Nat.div_eq_of_lt h
  have h2 : n % 10 = n := Nat.mod_eq_of_lt h
  simp [h1, h2]

/-- The verb `%.1f` renders every finite `float64` with exactly one digit after the
decimal point. -/
theorem formatF1_oneDecimalDigit (x : Float64) : OneDecimalDigit (formatF1 x) := by
  refine ⟨if x.sign then ['-'] else [], (toString (x.roundScaled 1 / 10)).toList,
    Nat.digitChar (x.roundScaled 1 % 10), ?_, ?_, (toString_nat_digits _).1,
    (toString_nat_digits _).2, digitChar_isDigit _ (Nat.mod_lt _ (by decide))⟩
  · have h := toString_nat_lt_ten (x.roundScaled 1 % 10) (Nat.mod_lt _ (by decide))
    simp only [String.toList] at h ⊢
    simp only [formatF1, String.data_append, h]
    cases x.sign <;> simp
  · cases x.sign <;> simp

/-- The value `temp72849` is a normalised `float64` and no `float64` of its binade is
nearer to `72.849`: its distance to `72.849` is at most half a unit in the last
place. -/
theorem temp72849_nearest :
    2 ^ 52 ≤ temp72849.mant ∧ temp72849.mant < 2 ^ 53 ∧ temp72849.exp = -46
    ∧ 2 * (1000 * (temp72849.mant : Int) - 72849 * 2 ^ 46).natAbs ≤ 1000 := by
  decide

/-- Every line the loop writes, whether or not it faults later, is the line
"Day k: ..." of one of its entries. -/
theorem forecastLoop_stdout_mem {F : Type} (w : World F) (l : List (DailyEntry F)) (i : Nat)
    (s : String) (hs : s ∈ stdoutOf (forecastLoop w (i + 1) l).1) :
    ∃ (j : Nat) (day : DailyEntry F) (x : WeatherDesc),
      l[j]? = some day ∧ day.Weather.head? = some x
      ∧ s = "Day " ++ toString (i + 1 + j) ++ ": " ++ w.fmtF1 day.Temp.Day ++ "°F, "
          ++ x.Description ++ "\n" := by
  induction l generalizing i with
  | nil => simp [forecastLoop, stdoutOf] at hs
  | cons d rest ih =>
    cases hw : d.Weather with
    | nil => simp [forecastLoop, hw, stdoutOf] at hs
    | cons y ys =>
      simp only [forecastLoop, hw, stdoutOf, if_neg (Nat.succ_ne_zero i)] at hs
      rcases List.mem_cons.mp hs with rfl | hs
      · exact ⟨0, d, y, by simp, by simp [hw], rfl⟩
      · obtain ⟨j, day, x, hj, hx, rfl⟩ := ih (i + 1) hs
        refine ⟨j + 1, day, x, by simpa using hj, hx, ?_⟩
        have e : i + 1 + 1 + j = i + 1 + (j + 1) := by omega
        rw [e]

/-- C9: in a world whose verb `%.1f` is the modelled one, (1) the verb renders every
`float64` with exactly one digit after the decimal point, whatever its precision;
(2) on a decoded weather response every text `getWeather` writes, in a complete or
in a faulting run, is the header, the current line carrying the current
temperature rendered by the verb, or the line "Day k: ..." carrying the day
temperature of `daily[k]` rendered by the verb; (3) with `current.temp` the
`float64` nearest `72.849` and the description "clear sky" the first line written
is "Current Weather: 72.8°F, clear sky". -/
theorem getWeather_one_decimal (w : World Float64) (apiKey : String) (lat lon : Float64)
    (resp : Response) (data : OneCallResponse Float64)
    (hfmt : w.fmtF1 = formatF1)
    (hget : w.Get (weatherUrl w apiKey lat lon) = .ok resp)
    (hst : resp.StatusCode = 200)
    (hdec : w.decodeOneCall resp.Body = .ok data) :
    (∀ x : Float64, OneDecimalDigit (formatF1 x))
    ∧ (∀ s ∈ stdoutOf (getWeather w apiKey lat lon).1,
        s = "7-Day Forecast:\n"
        ∨ (∃ c0 : WeatherDesc, data.Current.Weather.head? = some c0
            ∧ s = "Current Weather: " ++ formatF1 data.Current.Temp ++ "°F, "
                ++ c0.Description ++ "\n")
        ∨ (∃ (k : Nat) (day : DailyEntry Float64) (x : WeatherDesc),
            1 ≤ k ∧ data.Daily[k]? = some day ∧ day.Weather.head? = some x
            ∧ s = "Day " ++ toString k ++ ": " ++ formatF1 day.Temp.Day ++ "°F, "
                ++ x.Description ++ "\n"))
    ∧ (∀ cs : List WeatherDesc, data.Current.Temp = temp72849 →
        data.Current.Weather = ⟨"clear sky"⟩ :: cs →
        (stdoutOf (getWeather w apiKey lat lon).1).head?
          = some "Current Weather: 72.8°F, clear sky\n") := by
  refine ⟨formatF1_oneDecimalDigit, ?_, ?_⟩
  · intro s hs
    cases hw : data.Current.Weather with
    | nil =>
      rw [getWeather_of_current_empty w apiKey lat lon resp data hget hst hdec hw] at hs
      simp [stdoutOf] at hs
    | cons c0 cs =>
      rw [getWeather_of_decoded w apiKey lat lon resp data c0 cs hget hst hdec hw] at hs
      simp only [stdoutOf, List.mem_cons] at hs
      rcases hs with rfl | rfl | hs
      · exact Or.inr (Or.inl ⟨c0, rfl, by rw [hfmt]⟩)
      · exact Or.inl rfl
      · obtain ⟨j, day, x, hj, hx, rfl⟩ := forecastLoop_stdout_mem w _ 0 s hs
        refine Or.inr (Or.inr ⟨j + 1, day, x, by omega, ?_, hx, ?_⟩)
        · rw [List.getElem?_tail] at hj; exact hj
        · have e : 0 + 1 + j = j + 1 := by omega
          rw [e, hfmt]
  · intro cs htemp hcur
    rw [getWeather_of_decoded w apiKey lat lon resp data _ cs hget hst hdec hcur, hfmt, htemp]
    simp only [stdoutOf, List.head?_cons, Option.some.injEq]
    decide

/-- The scenario `current.temp=72.849`, "clear sky", `daily=[d0..d7]`, run with the
modelled verbs. -/
theorem getWeather_one_decimal_witness :
    (stdoutOf (getWeather (verbWorld ⟨200, "onecall"⟩ (.error ⟨"unused"⟩) (.ok clearSkyRecord))
        "k" ⟨false, 8520247545031557, -48⟩ ⟨true, 6877841055924879, -46⟩).1).head?
      = some "Current Weather: 72.8°F, clear sky\n" :=
  (getWeather_one_decimal (verbWorld ⟨200, "onecall"⟩ (.error ⟨"unused"⟩) (.ok clearSkyRecord))
    "k" ⟨false, 8520247545031557, -48⟩ ⟨true, 6877841055924879, -46⟩
    ⟨200, "onecall"⟩ clearSkyRecord rfl rfl rfl rfl).2.2 [] rfl rfl

end WeatherCli
